import Mathlib

/-!
Shallow embedding of the `ROS2Interface` class (src/webpack.config.js,
lines 85-382): a promise-based facade over the rclnodejs middleware
binding, with four name-keyed caches (publishers, subscription sets,
service clients, action clients), an `isInitialized` lifecycle flag and
a node handle.

Modelling choices:
- JS `Map<string, V>` is an association list with unique keys
  (`mapGet` / `mapHas` / `mapSet` / `mapDelete`); JS `Set` of handles is
  a duplicate-free list (`setAdd` / `setDelete`).
- Handles returned by the middleware (node, publishers, subscriptions,
  clients, action clients) are natural numbers drawn from a fresh
  counter.
- Every call into the middleware is recorded in an `events` trace, so
  "no underlying side effect" and "exactly one underlying call" are
  statements about the trace.
- Middleware outcomes the facade merely observes (init failure point,
  service availability, server readiness, goal acceptance, response and
  result payloads) are oracle arguments to the corresponding operation.
- JS exceptions are `Except Err`; since a JS method that throws still
  keeps the mutations it made before throwing, every operation returns
  the final state together with the outcome: `ROS2Interface × Except Err A`.
- Message, request, response, goal and parameter payloads are opaque
  (`Msg := Nat`).
-/

/-- Opaque payload type for messages, requests, responses, goals and
parameter values. -/
abbrev Msg := Nat

/-- Errors thrown by the facade. `typeError` models the JS `TypeError`
raised when a method is invoked on a `null` node handle. -/
inductive Err where
  | notInitialized
  | initFailed (cause : String)
  | serviceUnavailable (service : String)
  | actionServerUnavailable (action : String)
  | goalRejected
  | typeError
  deriving DecidableEq, Repr

/-- One call into the rclnodejs middleware, as recorded in the trace. -/
inductive Event where
  | contextInit
  | nodeCreate (name ns : String)
  | nodeSpin (timeout : Nat)
  | pubCreate (msgType topicName : String) (handle : Nat)
  | pubPublish (handle : Nat) (message : Msg)
  | subCreate (msgType topicName : String) (handle : Nat)
  | subDestroy (handle : Nat)
  | clientCreate (srvType serviceName : String) (handle : Nat)
  | waitForService (handle : Nat) (timeoutMs : Nat)
  | sendRequest (handle : Nat) (request : Msg)
  | actionClientCreate (actionType actionName : String) (handle : Nat)
  | waitForServer (handle : Nat) (timeoutMs : Nat)
  | sendGoal (handle : Nat) (goal : Msg)
  | getResult (handle : Nat)
  | hasParameter (name : String)
  | declareParameter (name : String) (value : Msg)
  | setParameter (name : String) (value : Msg)
  | getParameter (name : String)
  | nodeDestroy
  | contextShutdown
  deriving DecidableEq, Repr

/-- Lookup in a JS `Map` modelled as an association list. -/
def mapGet {α : Type} (m : List (String × α)) (k : String) : Option α :=
  match m with
  | [] => none
  | (k', v) :: rest => if k' = k then some v else mapGet rest k

/-- JS `Map.has`. -/
def mapHas {α : Type} (m : List (String × α)) (k : String) : Bool :=
  (mapGet m k).isSome

/-- JS `Map.set`: replace the entry for `k` if present, else append. -/
def mapSet {α : Type} (m : List (String × α)) (k : String) (v : α) :
    List (String × α) :=
  match m with
  | [] => [(k, v)]
  | (k', v') :: rest =>
      if k' = k then (k, v) :: rest else (k', v') :: mapSet rest k v

/-- JS `Map.delete`: remove the entry for `k` (Map keys are unique, so
removing every matching entry is the same operation). -/
def mapDelete {α : Type} (m : List (String × α)) (k : String) :
    List (String × α) :=
  m.filter (fun p => p.1 != k)

/-- JS `Set.add` on a set of handles. -/
def setAdd (s : List Nat) (x : Nat) : List Nat :=
  if x ∈ s then s else s ++ [x]

/-- JS `Set.delete` on a set of handles. -/
def setDelete (s : List Nat) (x : Nat) : List Nat :=
  s.filter (fun y => y != x)

/-- State of one `ROS2Interface` instance, together with the modelled
middleware: the node-side parameter store (`nodeParams`), a fresh-handle
counter and the trace of middleware calls. -/
structure ROS2Interface where
  nodeName : String
  ns : String
  spinTimeout : Nat
  node : Option Nat
  publishers : List (String × Nat)
  subscriptions : List (String × List Nat)
  clients : List (String × Nat)
  actionClients : List (String × Nat)
  isInitialized : Bool
  nodeParams : List (String × Msg)
  fresh : Nat
  events : List Event
  deriving DecidableEq, Repr

/-- The constructor (source lines 90-115): all caches empty, no node,
not initialized. -/
def ROS2Interface.new (nodeName ns : String) (spinTimeout : Nat) :
    ROS2Interface :=
  { nodeName := nodeName, ns := ns, spinTimeout := spinTimeout,
    node := none, publishers := [], subscriptions := [], clients := [],
    actionClients := [], isInitialized := false, nodeParams := [],
    fresh := 0, events := [] }

/-- Where `init` fails, if it does: `rclnodejs.init()` throwing
(`ctxFail`) or node creation throwing (`nodeFail`). -/
inductive InitOutcome where
  | ok
  | ctxFail (cause : String)
  | nodeFail (cause : String)
  deriving DecidableEq, Repr

/-- Source lines 126-143. If already initialized, return immediately.
Otherwise establish the context, create the node, start spinning and
set the flag; a failure in context establishment or node creation is
caught and rethrown as an initialization-failed error, leaving the
assignments that had not yet executed undone. -/
def ROS2Interface.init (s : ROS2Interface) (o : InitOutcome) :
    ROS2Interface × Except Err Unit :=
  if s.isInitialized then (s, .ok ())
  else
    match o with
    | .ctxFail c => (s, .error (.initFailed c))
    | .nodeFail c =>
        ({ s with events := s.events ++ [.contextInit] },
         .error (.initFailed c))
    | .ok =>
        ({ s with
            events := s.events ++
              [.contextInit, .nodeCreate s.nodeName s.ns,
               .nodeSpin s.spinTimeout],
            node := some s.fresh, fresh := s.fresh + 1, nodeParams := [],
            isInitialized := true },
         .ok ())

/-- Source lines 151-155: the internal guard. -/
def ROS2Interface.checkInit (s : ROS2Interface) : Except Err Unit :=
  if !s.isInitialized || s.node.isNone then .error .notInitialized
  else .ok ()

/-- Source lines 168-177: create (or retrieve) a cached publisher,
keyed by topic name only. -/
def ROS2Interface.createPublisher (s : ROS2Interface)
    (topicName msgType : String) : ROS2Interface × Except Err Nat :=
  match s.checkInit with
  | .error e => (s, .error e)
  | .ok _ =>
      match mapGet s.publishers topicName with
      | some p => (s, .ok p)
      | none =>
          let p := s.fresh
          ({ s with publishers := mapSet s.publishers topicName p,
                    fresh := s.fresh + 1,
                    events := s.events ++ [.pubCreate msgType topicName p] },
           .ok p)

/-- Source lines 186-189: resolve the publisher, then publish. -/
def ROS2Interface.publish (s : ROS2Interface) (topicName msgType : String)
    (message : Msg) : ROS2Interface × Except Err Unit :=
  match s.createPublisher topicName msgType with
  | (s', .error e) => (s', .error e)
  | (s', .ok p) =>
      ({ s' with events := s'.events ++ [.pubPublish p message] }, .ok ())

/-- Source lines 201-216: always create a new underlying subscription
and add it to the per-topic set (the callback itself is opaque and not
modelled). -/
def ROS2Interface.subscribe (s : ROS2Interface)
    (topicName msgType : String) : ROS2Interface × Except Err Nat :=
  match s.checkInit with
  | .error e => (s, .error e)
  | .ok _ =>
      let h := s.fresh
      let subs := (mapGet s.subscriptions topicName).getD []
      ({ s with
          subscriptions := mapSet s.subscriptions topicName (setAdd subs h),
          fresh := s.fresh + 1,
          events := s.events ++ [.subCreate msgType topicName h] },
       .ok h)

/-- Source lines 224-234: silent no-op when the topic has no tracked
set or the handle is not a member; otherwise destroy the underlying
subscription (a JS `TypeError` if the node is `null`), delete the
handle from the set, and drop the topic entry once the set is empty.
There is no init guard in this method. -/
def ROS2Interface.unsubscribe (s : ROS2Interface) (topicName : String)
    (subscription : Nat) : ROS2Interface × Except Err Unit :=
  match mapGet s.subscriptions topicName with
  | none => (s, .ok ())
  | some subs =>
      if subscription ∈ subs then
        match s.node with
        | none => (s, .error .typeError)
        | some _ =>
            let subs' := setDelete subs subscription
            ({ s with
                subscriptions :=
                  if subs'.length = 0 then mapDelete s.subscriptions topicName
                  else mapSet s.subscriptions topicName subs',
                events := s.events ++ [.subDestroy subscription] },
             .ok ())
      else (s, .ok ())

/-- Source lines 252-256: resolve the cached service client or create
and cache a new one. -/
def ROS2Interface.getClient (s : ROS2Interface)
    (serviceName serviceType : String) : ROS2Interface × Nat :=
  match mapGet s.clients serviceName with
  | some c => (s, c)
  | none =>
      let c := s.fresh
      ({ s with clients := mapSet s.clients serviceName c,
                fresh := s.fresh + 1,
                events := s.events ++ [.clientCreate serviceType serviceName c] },
       c)

/-- Source lines 249-264: guard, resolve client, wait for availability
(oracle `available`), then either throw service-unavailable or send the
request and resolve with the response (oracle `response`). -/
def ROS2Interface.callService (s : ROS2Interface)
    (serviceName serviceType : String) (request : Msg) (timeoutMs : Nat)
    (available : Bool) (response : Msg) : ROS2Interface × Except Err Msg :=
  match s.checkInit with
  | .error e => (s, .error e)
  | .ok _ =>
      let r := s.getClient serviceName serviceType
      let s2 := { r.1 with
                  events := r.1.events ++ [.waitForService r.2 timeoutMs] }
      if !available then (s2, .error (.serviceUnavailable serviceName))
      else ({ s2 with events := s2.events ++ [.sendRequest r.2 request] },
            .ok response)

/-- Source lines 289-297: resolve the cached action client or create
and cache a new one. -/
def ROS2Interface.getActionClient (s : ROS2Interface)
    (actionName actionType : String) : ROS2Interface × Nat :=
  match mapGet s.actionClients actionName with
  | some c => (s, c)
  | none =>
      let c := s.fresh
      ({ s with actionClients := mapSet s.actionClients actionName c,
                fresh := s.fresh + 1,
                events := s.events ++
                  [.actionClientCreate actionType actionName c] },
       c)

/-- Source lines 280-311: guard, resolve action client, wait for the
server (oracle `ready`), send the goal, and either throw goal-rejected
(oracle `accepted` false) or await and resolve with the final result
(oracle `result`). -/
def ROS2Interface.sendActionGoal (s : ROS2Interface)
    (actionName actionType : String) (goal : Msg) (timeoutMs : Nat)
    (ready accepted : Bool) (result : Msg) : ROS2Interface × Except Err Msg :=
  match s.checkInit with
  | .error e => (s, .error e)
  | .ok _ =>
      let r := s.getActionClient actionName actionType
      let s2 := { r.1 with
                  events := r.1.events ++ [.waitForServer r.2 timeoutMs] }
      if !ready then (s2, .error (.actionServerUnavailable actionName))
      else
        let s3 := { s2 with events := s2.events ++ [.sendGoal r.2 goal] }
        if !accepted then (s3, .error .goalRejected)
        else ({ s3 with events := s3.events ++ [.getResult r.2] },
              .ok result)

/-- Source lines 323-329: guard, query the node for the parameter, and
declare it only when absent. -/
def ROS2Interface.declareParam (s : ROS2Interface) (name : String)
    (defaultValue : Msg) : ROS2Interface × Except Err Unit :=
  match s.checkInit with
  | .error e => (s, .error e)
  | .ok _ =>
      let s1 := { s with events := s.events ++ [.hasParameter name] }
      if mapHas s.nodeParams name then (s1, .ok ())
      else
        ({ s1 with nodeParams := mapSet s.nodeParams name defaultValue,
                   events := s1.events ++ [.declareParameter name defaultValue] },
         .ok ())

/-- Source lines 337-346: guard, then forward the set unconditionally
to the node. -/
def ROS2Interface.setParam (s : ROS2Interface) (name : String)
    (value : Msg) : ROS2Interface × Except Err Unit :=
  match s.checkInit with
  | .error e => (s, .error e)
  | .ok _ =>
      ({ s with nodeParams := mapSet s.nodeParams name value,
                events := s.events ++ [.setParameter name value] },
       .ok ())

/-- Source lines 354-357: guard, then read the parameter value from the
node (`none` when unset). -/
def ROS2Interface.getParam (s : ROS2Interface) (name : String) :
    ROS2Interface × Except Err (Option Msg) :=
  match s.checkInit with
  | .error e => (s, .error e)
  | .ok _ =>
      ({ s with events := s.events ++ [.getParameter name] },
       .ok (mapGet s.nodeParams name))

/-- Source lines 368-381: no-op if not initialized; otherwise clear all
four caches, destroy the node, shut the context down, and reset the
flag and node handle. -/
def ROS2Interface.shutdown (s : ROS2Interface) : ROS2Interface :=
  if !s.isInitialized then s
  else
    { s with publishers := [], subscriptions := [], clients := [],
             actionClients := [],
             events := s.events ++ [.nodeDestroy, .contextShutdown],
             node := none, nodeParams := [], isInitialized := false }

/-- Reachable facade states: the constructor state, closed under every
public operation with arbitrary arguments and middleware oracles. -/
inductive Reachable : ROS2Interface → Prop where
  | ctor (name ns : String) (st : Nat) :
      Reachable (ROS2Interface.new name ns st)
  | step_init (s : ROS2Interface) (o : InitOutcome) :
      Reachable s → Reachable (s.init o).1
  | step_createPublisher (s : ROS2Interface) (t m : String) :
      Reachable s → Reachable (s.createPublisher t m).1
  | step_publish (s : ROS2Interface) (t m : String) (msg : Msg) :
      Reachable s → Reachable (s.publish t m msg).1
  | step_subscribe (s : ROS2Interface) (t m : String) :
      Reachable s → Reachable (s.subscribe t m).1
  | step_unsubscribe (s : ROS2Interface) (t : String) (h : Nat) :
      Reachable s → Reachable (s.unsubscribe t h).1
  | step_callService (s : ROS2Interface) (n t : String) (req : Msg)
      (tms : Nat) (av : Bool) (resp : Msg) :
      Reachable s → Reachable (s.callService n t req tms av resp).1
  | step_sendActionGoal (s : ROS2Interface) (n t : String) (g : Msg)
      (tms : Nat) (rd ac : Bool) (res : Msg) :
      Reachable s → Reachable (s.sendActionGoal n t g tms rd ac res).1
  | step_declareParam (s : ROS2Interface) (n : String) (v : Msg) :
      Reachable s → Reachable (s.declareParam n v).1
  | step_setParam (s : ROS2Interface) (n : String) (v : Msg) :
      Reachable s → Reachable (s.setParam n v).1
  | step_getParam (s : ROS2Interface) (n : String) :
      Reachable s → Reachable (s.getParam n).1
  | step_shutdown (s : ROS2Interface) :
      Reachable s → Reachable s.shutdown

/-- Recognizer for service-request events in the trace. -/
def isSendRequest : Event → Bool
  | .sendRequest _ _ => true
  | _ => false

/-- Number of service requests sent so far. -/
def countSendRequest (es : List Event) : Nat :=
  (es.filter isSendRequest).length

/-- Recognizer for result-retrieval events in the trace. -/
def isGetResult : Event → Bool
  | .getResult _ => true
  | _ => false

/-- Number of action results requested so far. -/
def countGetResult (es : List Event) : Nat :=
  (es.filter isGetResult).length

/-- Recognizer for declare calls for a given parameter name. -/
def isDeclareOf (n : String) : Event → Bool
  | .declareParameter m _ => m == n
  | _ => false

/-- Number of underlying declare calls issued for parameter `n`. -/
def countDeclare (n : String) (es : List Event) : Nat :=
  (es.filter (isDeclareOf n)).length

/-- Recognizer for publisher-creation events in the trace. -/
def isPubCreate : Event → Bool
  | .pubCreate _ _ _ => true
  | _ => false

/-- Number of underlying publishers created so far. -/
def countPubCreate (es : List Event) : Nat :=
  (es.filter isPubCreate).length

/-- A freshly constructed, uninitialized session. -/
def sNew : ROS2Interface :=
  ROS2Interface.new "ros2_interface_node" "/" 100

/-- A session after a successful `init`. -/
def sReady : ROS2Interface :=
  (sNew.init .ok).1

/-- An initialized session holding one subscription (handle 1) on the
topic "/chatter". -/
def sSub : ROS2Interface :=
  (sReady.subscribe "/chatter" "std_msgs/msg/String").1

/-! Basic facts about the association-list maps and handle sets. -/

theorem mapGet_mapSet_self {α : Type} (m : List (String × α)) (k : String)
    (v : α) : mapGet (mapSet m k v) k = some v := by
  induction m with
  | nil => simp [mapSet, mapGet]
  | cons p rest ih =>
      obtain ⟨k', v'⟩ := p
      by_cases hp : k' = k
      · simp [mapSet, mapGet, hp]
      · simp [mapSet, mapGet, hp, ih]

theorem mapGet_mapDelete_self {α : Type} (m : List (String × α))
    (k : String) : mapGet (mapDelete m k) k = none := by
  induction m with
  | nil => rfl
  | cons p rest ih =>
      obtain ⟨k', v'⟩ := p
      by_cases hp : k' = k
      · simpa [mapDelete, List.filter_cons, hp] using ih
      · simpa [mapDelete, List.filter_cons, hp, mapGet] using ih

theorem not_mem_setDelete_self (s : List Nat) (x : Nat) :
    x ∉ setDelete s x := by
  simp [setDelete, List.mem_filter]

theorem mapGet_nil {α : Type} (k : String) :
    mapGet ([] : List (String × α)) k = none := rfl

/-! Facts about the initialization guard. -/

theorem checkInit_uninit (s : ROS2Interface) (h : s.isInitialized = false) :
    s.checkInit = .error .notInitialized := by
  simp [ROS2Interface.checkInit, h]

theorem checkInit_node_none (s : ROS2Interface) (h : s.node = none) :
    s.checkInit = .error .notInitialized := by
  simp [ROS2Interface.checkInit, h]

theorem checkInit_ok_init (s : ROS2Interface) (h : s.checkInit = .ok ()) :
    s.isInitialized = true := by
  by_cases h1 : s.isInitialized = true
  · exact h1
  · rw [checkInit_uninit s (by revert h1; cases s.isInitialized <;> simp)]
      at h
    cases h

theorem checkInit_ok_node (s : ROS2Interface) (h : s.checkInit = .ok ()) :
    ∃ n, s.node = some n := by
  cases hn : s.node with
  | none => rw [checkInit_node_none s hn] at h; cases h
  | some n => exact ⟨n, rfl⟩

theorem checkInit_ok_of (s : ROS2Interface) (n : Nat)
    (h1 : s.isInitialized = true) (h2 : s.node = some n) :
    s.checkInit = .ok () := by
  simp [ROS2Interface.checkInit, h1, h2]

/-! Behaviour of the guarded operations on an uninitialized session:
the guard throws first, so the state is returned unchanged. -/

theorem createPublisher_uninit (s : ROS2Interface) (t m : String)
    (h : s.isInitialized = false) :
    s.createPublisher t m = (s, .error .notInitialized) := by
  unfold ROS2Interface.createPublisher
  rw [checkInit_uninit s h]

theorem publish_uninit (s : ROS2Interface) (t m : String) (msg : Msg)
    (h : s.isInitialized = false) :
    s.publish t m msg = (s, .error .notInitialized) := by
  unfold ROS2Interface.publish
  rw [createPublisher_uninit s t m h]

theorem subscribe_uninit (s : ROS2Interface) (t m : String)
    (h : s.isInitialized = false) :
    s.subscribe t m = (s, .error .notInitialized) := by
  unfold ROS2Interface.subscribe
  rw [checkInit_uninit s h]

theorem callService_uninit (s : ROS2Interface) (n t : String) (req : Msg)
    (tms : Nat) (av : Bool) (resp : Msg) (h : s.isInitialized = false) :
    s.callService n t req tms av resp = (s, .error .notInitialized) := by
  unfold ROS2Interface.callService
  rw [checkInit_uninit s h]

theorem sendActionGoal_uninit (s : ROS2Interface) (n t : String) (g : Msg)
    (tms : Nat) (rd ac : Bool) (res : Msg) (h : s.isInitialized = false) :
    s.sendActionGoal n t g tms rd ac res = (s, .error .notInitialized) := by
  unfold ROS2Interface.sendActionGoal
  rw [checkInit_uninit s h]

theorem declareParam_uninit (s : ROS2Interface) (n : String) (v : Msg)
    (h : s.isInitialized = false) :
    s.declareParam n v = (s, .error .notInitialized) := by
  unfold ROS2Interface.declareParam
  rw [checkInit_uninit s h]

theorem setParam_uninit (s : ROS2Interface) (n : String) (v : Msg)
    (h : s.isInitialized = false) :
    s.setParam n v = (s, .error .notInitialized) := by
  unfold ROS2Interface.setParam
  rw [checkInit_uninit s h]

theorem getParam_uninit (s : ROS2Interface) (n : String)
    (h : s.isInitialized = false) :
    s.getParam n = (s, .error .notInitialized) := by
  unfold ROS2Interface.getParam
  rw [checkInit_uninit s h]

theorem unsubscribe_no_entry (s : ROS2Interface) (t : String) (hdl : Nat)
    (h : mapGet s.subscriptions t = none) :
    s.unsubscribe t hdl = (s, .ok ()) := by
  unfold ROS2Interface.unsubscribe
  rw [h]

/-! Shape lemmas for the individual operations. -/

theorem init_of_initialized (s : ROS2Interface) (o : InitOutcome)
    (h : s.isInitialized = true) : s.init o = (s, .ok ()) := by
  simp [ROS2Interface.init, h]

theorem shutdown_of_uninit (s : ROS2Interface)
    (h : s.isInitialized = false) : s.shutdown = s := by
  simp [ROS2Interface.shutdown, h]

theorem shutdown_of_init (s : ROS2Interface) (h : s.isInitialized = true) :
    s.shutdown =
      { s with publishers := [], subscriptions := [], clients := [],
               actionClients := [],
               events := s.events ++ [.nodeDestroy, .contextShutdown],
               node := none, nodeParams := [], isInitialized := false } := by
  simp [ROS2Interface.shutdown, h]

theorem createPublisher_cached (s : ROS2Interface) (t m : String) (p : Nat)
    (h : s.checkInit = .ok ()) (hc : mapGet s.publishers t = some p) :
    s.createPublisher t m = (s, .ok p) := by
  unfold ROS2Interface.createPublisher
  rw [h, hc]

theorem createPublisher_fresh (s : ROS2Interface) (t m : String)
    (h : s.checkInit = .ok ()) (hc : mapGet s.publishers t = none) :
    s.createPublisher t m =
      ({ s with publishers := mapSet s.publishers t s.fresh,
                fresh := s.fresh + 1,
                events := s.events ++ [.pubCreate m t s.fresh] },
       .ok s.fresh) := by
  unfold ROS2Interface.createPublisher
  rw [h, hc]

theorem unsubscribe_not_member (s : ROS2Interface) (t : String) (hdl : Nat)
    (subs : List Nat) (hm : mapGet s.subscriptions t = some subs)
    (hmem : hdl ∉ subs) : s.unsubscribe t hdl = (s, .ok ()) := by
  unfold ROS2Interface.unsubscribe
  rw [hm]
  simp [hmem]

theorem unsubscribe_found (s : ROS2Interface) (t : String) (hdl : Nat)
    (subs : List Nat) (n : Nat) (hm : mapGet s.subscriptions t = some subs)
    (hmem : hdl ∈ subs) (hn : s.node = some n) :
    s.unsubscribe t hdl =
      ({ s with
          subscriptions := (if (setDelete subs hdl).length = 0 then
                              mapDelete s.subscriptions t
                            else mapSet s.subscriptions t (setDelete subs hdl)),
          events := s.events ++ [.subDestroy hdl] }, .ok ()) := by
  unfold ROS2Interface.unsubscribe
  rw [hm, hn]
  simp [hmem]

/-! Preservation lemmas: no public operation other than `init` and
`shutdown` changes the lifecycle flag, and `init` never touches the
caches. -/

theorem init_caches (s : ROS2Interface) (o : InitOutcome) :
    (s.init o).1.publishers = s.publishers ∧
    (s.init o).1.subscriptions = s.subscriptions ∧
    (s.init o).1.clients = s.clients ∧
    (s.init o).1.actionClients = s.actionClients := by
  unfold ROS2Interface.init
  split
  · exact ⟨rfl, rfl, rfl, rfl⟩
  · cases o <;> exact ⟨rfl, rfl, rfl, rfl⟩

theorem createPublisher_isInitialized (s : ROS2Interface) (t m : String) :
    (s.createPublisher t m).1.isInitialized = s.isInitialized := by
  unfold ROS2Interface.createPublisher
  split
  · rfl
  · split <;> rfl

theorem publish_isInitialized (s : ROS2Interface) (t m : String)
    (msg : Msg) : (s.publish t m msg).1.isInitialized = s.isInitialized := by
  unfold ROS2Interface.publish
  split <;> rename_i s' e heq <;>
    simpa [heq] using createPublisher_isInitialized s t m

theorem subscribe_isInitialized (s : ROS2Interface) (t m : String) :
    (s.subscribe t m).1.isInitialized = s.isInitialized := by
  unfold ROS2Interface.subscribe
  split <;> rfl

theorem unsubscribe_isInitialized (s : ROS2Interface) (t : String)
    (hdl : Nat) : (s.unsubscribe t hdl).1.isInitialized = s.isInitialized := by
  unfold ROS2Interface.unsubscribe
  split
  · rfl
  · split
    · split <;> rfl
    · rfl

theorem getClient_isInitialized (s : ROS2Interface) (n t : String) :
    (s.getClient n t).1.isInitialized = s.isInitialized := by
  unfold ROS2Interface.getClient
  split <;> rfl

theorem callService_isInitialized (s : ROS2Interface) (n t : String)
    (req : Msg) (tms : Nat) (av : Bool) (resp : Msg) :
    (s.callService n t req tms av resp).1.isInitialized = s.isInitialized := by
  unfold ROS2Interface.callService
  split
  · rfl
  · split <;> simpa using getClient_isInitialized s n t

theorem getActionClient_isInitialized (s : ROS2Interface) (n t : String) :
    (s.getActionClient n t).1.isInitialized = s.isInitialized := by
  unfold ROS2Interface.getActionClient
  split <;> rfl

theorem sendActionGoal_isInitialized (s : ROS2Interface) (n t : String)
    (g : Msg) (tms : Nat) (rd ac : Bool) (res : Msg) :
    (s.sendActionGoal n t g tms rd ac res).1.isInitialized =
      s.isInitialized := by
  unfold ROS2Interface.sendActionGoal
  split
  · rfl
  · split
    · simpa using getActionClient_isInitialized s n t
    · split <;> simpa using getActionClient_isInitialized s n t

theorem declareParam_isInitialized (s : ROS2Interface) (n : String)
    (v : Msg) : (s.declareParam n v).1.isInitialized = s.isInitialized := by
  unfold ROS2Interface.declareParam
  split
  · rfl
  · split <;> rfl

theorem setParam_isInitialized (s : ROS2Interface) (n : String) (v : Msg) :
    (s.setParam n v).1.isInitialized = s.isInitialized := by
  unfold ROS2Interface.setParam
  split <;> rfl

theorem getParam_isInitialized (s : ROS2Interface) (n : String) :
    (s.getParam n).1.isInitialized = s.isInitialized := by
  unfold ROS2Interface.getParam
  split <;> rfl

/-- Cache invariant: in every reachable state, an uninitialized session
has all four caches empty. -/
theorem reachable_uninit_caches (s : ROS2Interface) (hr : Reachable s) :
    s.isInitialized = false →
      s.publishers = [] ∧ s.subscriptions = [] ∧ s.clients = [] ∧
        s.actionClients = [] := by
  induction hr with
  | ctor name ns st => intro _; exact ⟨rfl, rfl, rfl, rfl⟩
  | step_init s o _ ih =>
      intro h
      by_cases hI : s.isInitialized = true
      · rw [init_of_initialized s o hI] at h
        simp [hI] at h
      · have hF : s.isInitialized = false := by
          revert hI; cases s.isInitialized <;> simp
        obtain ⟨h1, h2, h3, h4⟩ := ih hF
        obtain ⟨c1, c2, c3, c4⟩ := init_caches s o
        exact ⟨c1.trans h1, c2.trans h2, c3.trans h3, c4.trans h4⟩
  | step_createPublisher s t m _ ih =>
      intro h
      rw [createPublisher_isInitialized] at h
      rw [createPublisher_uninit s t m h]
      exact ih h
  | step_publish s t m msg _ ih =>
      intro h
      rw [publish_isInitialized] at h
      rw [publish_uninit s t m msg h]
      exact ih h
  | step_subscribe s t m _ ih =>
      intro h
      rw [subscribe_isInitialized] at h
      rw [subscribe_uninit s t m h]
      exact ih h
  | step_unsubscribe s t hdl _ ih =>
      intro h
      rw [unsubscribe_isInitialized] at h
      obtain ⟨h1, h2, h3, h4⟩ := ih h
      rw [unsubscribe_no_entry s t hdl (by rw [h2]; rfl)]
      exact ⟨h1, h2, h3, h4⟩
  | step_callService s n t req tms av resp _ ih =>
      intro h
      rw [callService_isInitialized] at h
      rw [callService_uninit s n t req tms av resp h]
      exact ih h
  | step_sendActionGoal s n t g tms rd ac res _ ih =>
      intro h
      rw [sendActionGoal_isInitialized] at h
      rw [sendActionGoal_uninit s n t g tms rd ac res h]
      exact ih h
  | step_declareParam s n v _ ih =>
      intro h
      rw [declareParam_isInitialized] at h
      rw [declareParam_uninit s n v h]
      exact ih h
  | step_setParam s n v _ ih =>
      intro h
      rw [setParam_isInitialized] at h
      rw [setParam_uninit s n v h]
      exact ih h
  | step_getParam s n _ ih =>
      intro h
      rw [getParam_isInitialized] at h
      rw [getParam_uninit s n h]
      exact ih h
  | step_shutdown s _ ih =>
      intro _
      by_cases hI : s.isInitialized = true
      · rw [shutdown_of_init s hI]
        exact ⟨rfl, rfl, rfl, rfl⟩
      · have hF : s.isInitialized = false := by
          revert hI; cases s.isInitialized <;> simp
        rw [shutdown_of_uninit s hF]
        exact ih hF

/-! Trace-counting lemmas. -/

theorem countSendRequest_append (es es' : List Event) :
    countSendRequest (es ++ es') =
      countSendRequest es + countSendRequest es' := by
  simp [countSendRequest, List.filter_append]

theorem countGetResult_append (es es' : List Event) :
    countGetResult (es ++ es') =
      countGetResult es + countGetResult es' := by
  simp [countGetResult, List.filter_append]

theorem countDeclare_append (n : String) (es es' : List Event) :
    countDeclare n (es ++ es') =
      countDeclare n es + countDeclare n es' := by
  simp [countDeclare, List.filter_append]

theorem getClient_countSendRequest (s : ROS2Interface) (n t : String) :
    countSendRequest (s.getClient n t).1.events =
      countSendRequest s.events := by
  unfold ROS2Interface.getClient
  split
  · rfl
  · simp [countSendRequest, List.filter_append, isSendRequest]

theorem getActionClient_countGetResult (s : ROS2Interface) (n t : String) :
    countGetResult (s.getActionClient n t).1.events =
      countGetResult s.events := by
  unfold ROS2Interface.getActionClient
  split
  · rfl
  · simp [countGetResult, List.filter_append, isGetResult]

theorem mapHas_mapSet_self {α : Type} (m : List (String × α)) (k : String)
    (v : α) : mapHas (mapSet m k v) k = true := by
  simp [mapHas, mapGet_mapSet_self]

/-! Shape lemmas for the parameter operations. -/

theorem declareParam_present (s : ROS2Interface) (n : String) (v : Msg)
    (h : s.checkInit = .ok ()) (hp : mapHas s.nodeParams n = true) :
    s.declareParam n v =
      ({ s with events := s.events ++ [.hasParameter n] }, .ok ()) := by
  unfold ROS2Interface.declareParam
  rw [h]
  simp [hp]

theorem declareParam_absent (s : ROS2Interface) (n : String) (v : Msg)
    (h : s.checkInit = .ok ()) (hp : mapHas s.nodeParams n = false) :
    s.declareParam n v =
      ({ s with nodeParams := mapSet s.nodeParams n v,
                events := (s.events ++ [.hasParameter n]) ++
                  [.declareParameter n v] }, .ok ()) := by
  unfold ROS2Interface.declareParam
  rw [h]
  simp [hp]

theorem declareParam_node (s : ROS2Interface) (n : String) (v : Msg) :
    (s.declareParam n v).1.node = s.node := by
  unfold ROS2Interface.declareParam
  split
  · rfl
  · split <;> rfl

theorem checkInit_congr (s s' : ROS2Interface)
    (h1 : s'.isInitialized = s.isInitialized) (h2 : s'.node = s.node) :
    s'.checkInit = s.checkInit := by
  unfold ROS2Interface.checkInit
  rw [h1, h2]

/-! Shape lemmas for the service and action operations. -/

theorem callService_unavailable (s : ROS2Interface) (nm t : String)
    (req : Msg) (tms : Nat) (resp : Msg) (h : s.checkInit = .ok ()) :
    s.callService nm t req tms false resp =
      ({ (s.getClient nm t).1 with
          events := (s.getClient nm t).1.events ++
            [.waitForService (s.getClient nm t).2 tms] },
       .error (.serviceUnavailable nm)) := by
  unfold ROS2Interface.callService
  rw [h]
  rfl

theorem callService_available (s : ROS2Interface) (nm t : String)
    (req : Msg) (tms : Nat) (resp : Msg) (h : s.checkInit = .ok ()) :
    s.callService nm t req tms true resp =
      ({ (s.getClient nm t).1 with
          events := ((s.getClient nm t).1.events ++
            [.waitForService (s.getClient nm t).2 tms]) ++
            [.sendRequest (s.getClient nm t).2 req] },
       .ok resp) := by
  unfold ROS2Interface.callService
  rw [h]
  rfl

theorem sendActionGoal_notReady (s : ROS2Interface) (a aty : String)
    (g : Msg) (tms : Nat) (ac : Bool) (res : Msg)
    (h : s.checkInit = .ok ()) :
    s.sendActionGoal a aty g tms false ac res =
      ({ (s.getActionClient a aty).1 with
          events := (s.getActionClient a aty).1.events ++
            [.waitForServer (s.getActionClient a aty).2 tms] },
       .error (.actionServerUnavailable a)) := by
  unfold ROS2Interface.sendActionGoal
  rw [h]
  rfl

theorem sendActionGoal_rejected (s : ROS2Interface) (a aty : String)
    (g : Msg) (tms : Nat) (res : Msg) (h : s.checkInit = .ok ()) :
    s.sendActionGoal a aty g tms true false res =
      ({ (s.getActionClient a aty).1 with
          events := ((s.getActionClient a aty).1.events ++
            [.waitForServer (s.getActionClient a aty).2 tms]) ++
            [.sendGoal (s.getActionClient a aty).2 g] },
       .error .goalRejected) := by
  unfold ROS2Interface.sendActionGoal
  rw [h]
  rfl

theorem sendActionGoal_accepted (s : ROS2Interface) (a aty : String)
    (g : Msg) (tms : Nat) (res : Msg) (h : s.checkInit = .ok ()) :
    s.sendActionGoal a aty g tms true true res =
      ({ (s.getActionClient a aty).1 with
          events := (((s.getActionClient a aty).1.events ++
            [.waitForServer (s.getActionClient a aty).2 tms]) ++
            [.sendGoal (s.getActionClient a aty).2 g]) ++
            [.getResult (s.getActionClient a aty).2] },
       .ok res) := by
  unfold ROS2Interface.sendActionGoal
  rw [h]
  rfl

/-! Claims. -/

/-- Claim C1, counterexample: the claim quantifies over nine operations
including `unsubscribe`, but `unsubscribe` has no init guard (source
lines 224-234): on a freshly constructed, uninitialized session it
returns silently with no error at all instead of failing with the
not-initialized error. -/
theorem claim1_counterexample :
    sNew.isInitialized = false ∧
    sNew.unsubscribe "/chatter" 7 = (sNew, .ok ()) ∧
    (sNew.unsubscribe "/chatter" 7).2 ≠ .error .notInitialized := by
  refine ⟨rfl, rfl, ?_⟩
  intro hcon
  simp [sNew, ROS2Interface.new, ROS2Interface.unsubscribe, mapGet] at hcon

/-- Claim C1 as amended: on an uninitialized session, the eight guarded
operations (createPublisher, publish, subscribe, callService,
sendActionGoal, declareParam, setParam, getParam) fail with the
not-initialized error and leave the state — caches and middleware
trace — completely unchanged; `unsubscribe`, which has no guard, is a
silent successful no-op whenever the subscriptions cache is empty (as
it is in every reachable uninitialized state). -/
theorem claim1_uninit_guard (s : ROS2Interface)
    (h : s.isInitialized = false) (t m nm : String) (msg v : Msg)
    (tms : Nat) (av rd ac : Bool) (resp res : Msg) (hdl : Nat) :
    s.createPublisher t m = (s, .error .notInitialized) ∧
    s.publish t m msg = (s, .error .notInitialized) ∧
    s.subscribe t m = (s, .error .notInitialized) ∧
    s.callService nm t msg tms av resp = (s, .error .notInitialized) ∧
    s.sendActionGoal nm t msg tms rd ac res = (s, .error .notInitialized) ∧
    s.declareParam nm v = (s, .error .notInitialized) ∧
    s.setParam nm v = (s, .error .notInitialized) ∧
    s.getParam nm = (s, .error .notInitialized) ∧
    (s.subscriptions = [] → s.unsubscribe t hdl = (s, .ok ())) :=
  ⟨createPublisher_uninit s t m h, publish_uninit s t m msg h,
   subscribe_uninit s t m h, callService_uninit s nm t msg tms av resp h,
   sendActionGoal_uninit s nm t msg tms rd ac res h,
   declareParam_uninit s nm v h, setParam_uninit s nm v h,
   getParam_uninit s nm h,
   fun hsub => unsubscribe_no_entry s t hdl (by rw [hsub]; rfl)⟩

/-- Witness for claim C1 at the constructor state. -/
theorem claim1_witness :
    sNew.isInitialized = false ∧
    sNew.createPublisher "/t" "std_msgs/msg/String" =
      (sNew, .error .notInitialized) ∧
    sNew.callService "/srv" "std_srvs/srv/Empty" 1 500 true 2 =
      (sNew, .error .notInitialized) ∧
    sNew.setParam "p" 1 = (sNew, .error .notInitialized) :=
  ⟨rfl,
   (claim1_uninit_guard sNew rfl "/t" "std_msgs/msg/String" "/srv" 1 1 500
      true true false 2 3 0).1,
   (claim1_uninit_guard sNew rfl "/t" "std_srvs/srv/Empty" "/srv" 1 1 500
      true true false 2 3 0).2.2.2.1,
   (claim1_uninit_guard sNew rfl "/t" "std_msgs/msg/String" "p" 1 1 500
      true true false 2 3 0).2.2.2.2.2.2.1⟩

/-- Claim C4: when `init` fails in context establishment or node
creation, the session stays uninitialized, the operation fails with the
initialization-failed error carrying the underlying cause, and no
partial state is retained: the node handle stays absent and the caches
are untouched. -/
theorem claim4_init_failure (s : ROS2Interface) (c : String)
    (h : s.isInitialized = false) (hn : s.node = none) :
    s.init (.ctxFail c) = (s, .error (.initFailed c)) ∧
    (s.init (.nodeFail c)).2 = .error (.initFailed c) ∧
    (s.init (.nodeFail c)).1.isInitialized = false ∧
    (s.init (.nodeFail c)).1.node = none ∧
    (s.init (.nodeFail c)).1.publishers = s.publishers ∧
    (s.init (.nodeFail c)).1.subscriptions = s.subscriptions ∧
    (s.init (.nodeFail c)).1.clients = s.clients ∧
    (s.init (.nodeFail c)).1.actionClients = s.actionClients := by
  simp [ROS2Interface.init, h, hn]

/-- Witness for claim C4 at the constructor state. -/
theorem claim4_witness :
    sNew.isInitialized = false ∧ sNew.node = none ∧
    sNew.init (.ctxFail "boom") = (sNew, .error (.initFailed "boom")) ∧
    (sNew.init (.nodeFail "boom")).1.isInitialized = false ∧
    (sNew.init (.nodeFail "boom")).1.node = none :=
  ⟨rfl, rfl, (claim4_init_failure sNew "boom" rfl rfl).1,
   (claim4_init_failure sNew "boom" rfl rfl).2.2.1,
   (claim4_init_failure sNew "boom" rfl rfl).2.2.2.1⟩

/-- Claim C8: `init` is idempotent — on an already-initialized session
it returns successfully at once and changes nothing, whatever the
middleware would have done (`o` is arbitrary, so nothing is
re-created). -/
theorem claim8_init_idempotent (s : ROS2Interface) (o : InitOutcome)
    (h : s.isInitialized = true) : s.init o = (s, .ok ()) :=
  init_of_initialized s o h

/-- Witness for claim C8 at an initialized session. -/
theorem claim8_witness :
    sReady.isInitialized = true ∧
    sReady.init (.ctxFail "boom") = (sReady, .ok ()) ∧
    sReady.init .ok = (sReady, .ok ()) :=
  ⟨rfl, claim8_init_idempotent sReady (.ctxFail "boom") rfl,
   claim8_init_idempotent sReady .ok rfl⟩

/-- Claim C10: `unsubscribe` with no tracked set for the topic, or with
a handle outside the tracked set, returns with no error, no state
change and no middleware call, in every session state — and in no
session state does `unsubscribe` raise the not-initialized error. -/
theorem claim10_unsubscribe_unguarded (s : ROS2Interface) (t : String)
    (hdl : Nat) :
    (mapGet s.subscriptions t = none → s.unsubscribe t hdl = (s, .ok ())) ∧
    (∀ subs, mapGet s.subscriptions t = some subs → hdl ∉ subs →
       s.unsubscribe t hdl = (s, .ok ())) ∧
    (s.unsubscribe t hdl).2 ≠ .error .notInitialized := by
  refine ⟨fun h => unsubscribe_no_entry s t hdl h,
    fun subs hm hmem => unsubscribe_not_member s t hdl subs hm hmem, ?_⟩
  unfold ROS2Interface.unsubscribe
  split
  · simp
  · split
    · split
      · simp
      · simp
    · simp

/-- Witness for claim C10 at the constructor state. -/
theorem claim10_witness :
    mapGet sNew.subscriptions "/chatter" = none ∧
    sNew.unsubscribe "/chatter" 7 = (sNew, .ok ()) ∧
    (sNew.unsubscribe "/chatter" 7).2 ≠ .error .notInitialized :=
  ⟨rfl, (claim10_unsubscribe_unguarded sNew "/chatter" 7).1 rfl,
   (claim10_unsubscribe_unguarded sNew "/chatter" 7).2.2⟩

/-- Claim C3: on an initialized session, the first `createPublisher`
for a topic not yet cached creates exactly one underlying publisher
(exactly one creation event) and caches its handle; afterwards, any
call with the same topic on any initialized session whose cache maps
the topic to that handle — in particular every later call in the
sequence, whatever the message type argument — returns the identical
cached handle and changes nothing. -/
theorem claim3_createPublisher_cached_once (s : ROS2Interface)
    (t m1 : String) (h : s.checkInit = .ok ())
    (hc : mapGet s.publishers t = none) :
    ∃ p s1, s.createPublisher t m1 = (s1, .ok p) ∧
      s1.events = s.events ++ [Event.pubCreate m1 t p] ∧
      mapGet s1.publishers t = some p ∧
      s1.checkInit = .ok () ∧
      (∀ (s2 : ROS2Interface) (m2 : String), s2.checkInit = .ok () →
        mapGet s2.publishers t = some p →
        s2.createPublisher t m2 = (s2, .ok p)) := by
  refine ⟨s.fresh, _, createPublisher_fresh s t m1 h hc, rfl,
    mapGet_mapSet_self _ _ _, ?_, ?_⟩
  · exact (checkInit_congr s _ rfl rfl).trans h
  · exact fun s2 m2 h2 hc2 => createPublisher_cached s2 t m2 s.fresh h2 hc2

/-- Witness for claim C3 on a freshly initialized session. -/
theorem claim3_witness :
    sReady.checkInit = .ok () ∧
    mapGet sReady.publishers "/t" = none ∧
    (∃ p s1, sReady.createPublisher "/t" "std_msgs/msg/String" =
        (s1, .ok p) ∧
      s1.events = sReady.events ++ [Event.pubCreate "std_msgs/msg/String" "/t" p] ∧
      mapGet s1.publishers "/t" = some p ∧
      s1.checkInit = .ok () ∧
      (∀ (s2 : ROS2Interface) (m2 : String), s2.checkInit = .ok () →
        mapGet s2.publishers "/t" = some p →
        s2.createPublisher "/t" m2 = (s2, .ok p))) :=
  ⟨rfl, rfl,
   claim3_createPublisher_cached_once sReady "/t" "std_msgs/msg/String"
     rfl rfl⟩

/-- Claim C7: `unsubscribe` is a silent no-op when the topic has no
tracked set or the handle is not a member; otherwise it destroys
exactly that underlying subscription, removes the handle from the set,
drops the topic entry entirely once the set becomes empty, and a second
`unsubscribe` with the same handle is a silent no-op. -/
theorem claim7_unsubscribe_semantics (s : ROS2Interface) (t : String)
    (hdl : Nat) :
    (mapGet s.subscriptions t = none → s.unsubscribe t hdl = (s, .ok ())) ∧
    (∀ subs, mapGet s.subscriptions t = some subs → hdl ∉ subs →
       s.unsubscribe t hdl = (s, .ok ())) ∧
    (∀ subs n, mapGet s.subscriptions t = some subs → hdl ∈ subs →
       s.node = some n →
       (s.unsubscribe t hdl).2 = .ok () ∧
       (s.unsubscribe t hdl).1.events = s.events ++ [.subDestroy hdl] ∧
       mapGet (s.unsubscribe t hdl).1.subscriptions t =
         (if (setDelete subs hdl).length = 0 then none
          else some (setDelete subs hdl)) ∧
       (s.unsubscribe t hdl).1.unsubscribe t hdl =
         ((s.unsubscribe t hdl).1, .ok ())) := by
  refine ⟨fun h => unsubscribe_no_entry s t hdl h,
    fun subs hm hmem => unsubscribe_not_member s t hdl subs hm hmem,
    fun subs n hm hmem hn => ?_⟩
  rw [unsubscribe_found s t hdl subs n hm hmem hn]
  refine ⟨rfl, rfl, ?_, ?_⟩
  · by_cases hz : (setDelete subs hdl).length = 0
    · simp [hz, mapGet_mapDelete_self]
    · simp [hz, mapGet_mapSet_self]
  · by_cases hz : (setDelete subs hdl).length = 0
    · exact unsubscribe_no_entry _ t hdl
        (by simp [hz, mapGet_mapDelete_self])
    · exact unsubscribe_not_member _ t hdl (setDelete subs hdl)
        (by simp [hz, mapGet_mapSet_self]) (not_mem_setDelete_self subs hdl)

/-- Witness for claim C7 on a session holding one subscription. -/
theorem claim7_witness :
    mapGet sSub.subscriptions "/chatter" = some [1] ∧ 1 ∈ [1] ∧
    sSub.node = some 0 ∧
    ((sSub.unsubscribe "/chatter" 1).2 = .ok () ∧
     (sSub.unsubscribe "/chatter" 1).1.events =
       sSub.events ++ [.subDestroy 1] ∧
     mapGet (sSub.unsubscribe "/chatter" 1).1.subscriptions "/chatter" =
       (if (setDelete [1] 1).length = 0 then none
        else some (setDelete [1] 1)) ∧
     (sSub.unsubscribe "/chatter" 1).1.unsubscribe "/chatter" 1 =
       ((sSub.unsubscribe "/chatter" 1).1, .ok ())) :=
  ⟨rfl, by decide, rfl,
   (claim7_unsubscribe_semantics sSub "/chatter" 1).2.2 [1] 0 rfl
     (by decide) rfl⟩

/-- Claim C5: on an initialized session, `callService` whose
availability wait reports the service unavailable fails with the
service-unavailable error and sends no request (the count of
request-send events in the trace is unchanged); when the service is
available it sends the request exactly once and resolves with the
eventual response. -/
theorem claim5_callService_availability (s : ROS2Interface)
    (nm t : String) (req : Msg) (tms : Nat) (resp : Msg)
    (h : s.checkInit = .ok ()) :
    ((s.callService nm t req tms false resp).2 =
        .error (.serviceUnavailable nm) ∧
      countSendRequest (s.callService nm t req tms false resp).1.events =
        countSendRequest s.events) ∧
    ((s.callService nm t req tms true resp).2 = .ok resp ∧
      countSendRequest (s.callService nm t req tms true resp).1.events =
        countSendRequest s.events + 1) := by
  constructor
  · rw [callService_unavailable s nm t req tms resp h]
    refine ⟨rfl, ?_⟩
    show countSendRequest ((s.getClient nm t).1.events ++
      [.waitForService (s.getClient nm t).2 tms]) = countSendRequest s.events
    rw [countSendRequest_append, getClient_countSendRequest]
    simp [countSendRequest, isSendRequest]
  · rw [callService_available s nm t req tms resp h]
    refine ⟨rfl, ?_⟩
    show countSendRequest (((s.getClient nm t).1.events ++
      [.waitForService (s.getClient nm t).2 tms]) ++
      [.sendRequest (s.getClient nm t).2 req]) = countSendRequest s.events + 1
    rw [countSendRequest_append, countSendRequest_append,
      getClient_countSendRequest]
    simp [countSendRequest, isSendRequest]

/-- Witness for claim C5 on a freshly initialized session. -/
theorem claim5_witness :
    sReady.checkInit = .ok () ∧
    (sReady.callService "/srv" "std_srvs/srv/Empty" 7 500 false 9).2 =
      .error (.serviceUnavailable "/srv") ∧
    countSendRequest
      (sReady.callService "/srv" "std_srvs/srv/Empty" 7 500 false 9).1.events =
      countSendRequest sReady.events ∧
    (sReady.callService "/srv" "std_srvs/srv/Empty" 7 500 true 9).2 =
      .ok 9 ∧
    countSendRequest
      (sReady.callService "/srv" "std_srvs/srv/Empty" 7 500 true 9).1.events =
      countSendRequest sReady.events + 1 :=
  ⟨rfl,
   (claim5_callService_availability sReady "/srv" "std_srvs/srv/Empty"
      7 500 9 rfl).1.1,
   (claim5_callService_availability sReady "/srv" "std_srvs/srv/Empty"
      7 500 9 rfl).1.2,
   (claim5_callService_availability sReady "/srv" "std_srvs/srv/Empty"
      7 500 9 rfl).2.1,
   (claim5_callService_availability sReady "/srv" "std_srvs/srv/Empty"
      7 500 9 rfl).2.2⟩

/-- Claim C6: on an initialized session whose availability wait
succeeds, a rejected goal makes `sendActionGoal` fail with the
goal-rejected error without ever requesting the result (the count of
result-retrieval events is unchanged); an accepted goal resolves with
the final result; and every call has exactly one terminal outcome,
always one of server-unavailable error, goal-rejected error, or the
single result value. -/
theorem claim6_sendActionGoal_outcomes (s : ROS2Interface)
    (a aty : String) (g : Msg) (tms : Nat) (res : Msg)
    (h : s.checkInit = .ok ()) :
    ((s.sendActionGoal a aty g tms true false res).2 =
        .error .goalRejected ∧
      countGetResult (s.sendActionGoal a aty g tms true false res).1.events =
        countGetResult s.events) ∧
    (s.sendActionGoal a aty g tms true true res).2 = .ok res ∧
    (∀ rd ac : Bool,
      (s.sendActionGoal a aty g tms rd ac res).2 =
          .error (.actionServerUnavailable a) ∨
      (s.sendActionGoal a aty g tms rd ac res).2 = .error .goalRejected ∨
      (s.sendActionGoal a aty g tms rd ac res).2 = .ok res) := by
  refine ⟨⟨?_, ?_⟩, ?_, ?_⟩
  · rw [sendActionGoal_rejected s a aty g tms res h]
  · rw [sendActionGoal_rejected s a aty g tms res h]
    show countGetResult (((s.getActionClient a aty).1.events ++
      [.waitForServer (s.getActionClient a aty).2 tms]) ++
      [.sendGoal (s.getActionClient a aty).2 g]) = countGetResult s.events
    rw [countGetResult_append, countGetResult_append,
      getActionClient_countGetResult]
    simp [countGetResult, isGetResult]
  · rw [sendActionGoal_accepted s a aty g tms res h]
  · intro rd ac
    cases rd with
    | false =>
        exact Or.inl (by rw [sendActionGoal_notReady s a aty g tms ac res h])
    | true =>
        cases ac with
        | false =>
            exact Or.inr (Or.inl
              (by rw [sendActionGoal_rejected s a aty g tms res h]))
        | true =>
            exact Or.inr (Or.inr
              (by rw [sendActionGoal_accepted s a aty g tms res h]))

/-- Witness for claim C6 on a freshly initialized session. -/
theorem claim6_witness :
    sReady.checkInit = .ok () ∧
    (sReady.sendActionGoal "/act" "test_msgs/action/F" 4 500 true false 8).2 =
      .error .goalRejected ∧
    countGetResult
      (sReady.sendActionGoal "/act" "test_msgs/action/F" 4 500 true false 8).1.events =
      countGetResult sReady.events ∧
    (sReady.sendActionGoal "/act" "test_msgs/action/F" 4 500 true true 8).2 =
      .ok 8 :=
  ⟨rfl,
   (claim6_sendActionGoal_outcomes sReady "/act" "test_msgs/action/F"
      4 500 8 rfl).1.1,
   (claim6_sendActionGoal_outcomes sReady "/act" "test_msgs/action/F"
      4 500 8 rfl).1.2,
   (claim6_sendActionGoal_outcomes sReady "/act" "test_msgs/action/F"
      4 500 8 rfl).2.1⟩

/-- Claim C9: `declareParam` on an initialized session is idempotent —
when the parameter already exists on the node the call only queries for
it (no declare call, no parameter change), and when it is absent the
call declares it, so two consecutive calls with the same name issue
exactly one underlying declare call. -/
theorem claim9_declareParam_idempotent (s : ROS2Interface) (n : String)
    (v w : Msg) (h : s.checkInit = .ok ()) :
    (mapHas s.nodeParams n = true →
      s.declareParam n v =
        ({ s with events := s.events ++ [.hasParameter n] }, .ok ())) ∧
    (mapHas s.nodeParams n = false →
      countDeclare n (s.declareParam n v).1.events =
        countDeclare n s.events + 1 ∧
      countDeclare n ((s.declareParam n v).1.declareParam n w).1.events =
        countDeclare n s.events + 1) := by
  refine ⟨fun hp => declareParam_present s n v h hp, fun hp => ?_⟩
  rw [declareParam_absent s n v h hp]
  constructor
  · show countDeclare n ((s.events ++ [.hasParameter n]) ++
      [.declareParameter n v]) = countDeclare n s.events + 1
    rw [countDeclare_append, countDeclare_append]
    simp [countDeclare, isDeclareOf]
  · have hS1 : ({ s with
                   nodeParams := mapSet s.nodeParams n v,
                   events := (s.events ++ [.hasParameter n]) ++
                     [.declareParameter n v] } : ROS2Interface).checkInit =
        .ok () :=
      (checkInit_congr s _ rfl rfl).trans h
    rw [declareParam_present _ n w hS1
      (mapHas_mapSet_self s.nodeParams n v)]
    show countDeclare n (((s.events ++ [.hasParameter n]) ++
      [.declareParameter n v]) ++ [.hasParameter n]) =
      countDeclare n s.events + 1
    rw [countDeclare_append, countDeclare_append, countDeclare_append]
    simp [countDeclare, isDeclareOf]

/-- Witness for claim C9 on a freshly initialized session. -/
theorem claim9_witness :
    sReady.checkInit = .ok () ∧
    mapHas sReady.nodeParams "p" = false ∧
    countDeclare "p" (sReady.declareParam "p" 1).1.events =
      countDeclare "p" sReady.events + 1 ∧
    countDeclare "p"
      ((sReady.declareParam "p" 1).1.declareParam "p" 2).1.events =
      countDeclare "p" sReady.events + 1 :=
  ⟨rfl, rfl,
   ((claim9_declareParam_idempotent sReady "p" 1 2 rfl).2 rfl).1,
   ((claim9_declareParam_idempotent sReady "p" 1 2 rfl).2 rfl).2⟩

/-- Claim C2: in every reachable state the four caches are non-empty
only while the session is initialized (an uninitialized session has all
caches empty, and `shutdown` is then a no-op); on an initialized
session, `shutdown` clears all four caches, destroys the node, tears
down the middleware context, and resets the session to uninitialized,
after which every guarded operation fails with the not-initialized
error without touching anything and `unsubscribe` finds only an empty
cache — no operation can observe a stale cache entry and succeed. -/
theorem claim2_shutdown_and_cache_invariant (s : ROS2Interface)
    (hr : Reachable s) :
    (s.isInitialized = false →
      s.publishers = [] ∧ s.subscriptions = [] ∧ s.clients = [] ∧
        s.actionClients = [] ∧ s.shutdown = s) ∧
    (s.isInitialized = true →
      s.shutdown.publishers = [] ∧ s.shutdown.subscriptions = [] ∧
      s.shutdown.clients = [] ∧ s.shutdown.actionClients = [] ∧
      s.shutdown.node = none ∧ s.shutdown.isInitialized = false ∧
      s.shutdown.events = s.events ++ [.nodeDestroy, .contextShutdown] ∧
      ∀ (t m : String) (msg v : Msg) (tms : Nat) (av rd ac : Bool)
        (resp res : Msg) (hdl : Nat),
        s.shutdown.createPublisher t m =
          (s.shutdown, .error .notInitialized) ∧
        s.shutdown.publish t m msg = (s.shutdown, .error .notInitialized) ∧
        s.shutdown.subscribe t m = (s.shutdown, .error .notInitialized) ∧
        s.shutdown.callService t m msg tms av resp =
          (s.shutdown, .error .notInitialized) ∧
        s.shutdown.sendActionGoal t m msg tms rd ac res =
          (s.shutdown, .error .notInitialized) ∧
        s.shutdown.declareParam t v = (s.shutdown, .error .notInitialized) ∧
        s.shutdown.setParam t v = (s.shutdown, .error .notInitialized) ∧
        s.shutdown.getParam t = (s.shutdown, .error .notInitialized) ∧
        s.shutdown.unsubscribe t hdl = (s.shutdown, .ok ())) := by
  constructor
  · intro h
    obtain ⟨h1, h2, h3, h4⟩ := reachable_uninit_caches s hr h
    exact ⟨h1, h2, h3, h4, shutdown_of_uninit s h⟩
  · intro h
    have hsd := shutdown_of_init s h
    have hF : s.shutdown.isInitialized = false := by rw [hsd]
    have hsubs : s.shutdown.subscriptions = [] := by rw [hsd]
    refine ⟨by rw [hsd], hsubs, by rw [hsd], by rw [hsd], by rw [hsd],
      hF, by rw [hsd], ?_⟩
    intro t m msg v tms av rd ac resp res hdl
    exact ⟨createPublisher_uninit _ t m hF, publish_uninit _ t m msg hF,
      subscribe_uninit _ t m hF,
      callService_uninit _ t m msg tms av resp hF,
      sendActionGoal_uninit _ t m msg tms rd ac res hF,
      declareParam_uninit _ t v hF, setParam_uninit _ t v hF,
      getParam_uninit _ t hF,
      unsubscribe_no_entry _ t hdl (by rw [hsubs]; rfl)⟩

/-- Witness for claim C2 on a reachable initialized session. -/
theorem claim2_witness :
    sReady.isInitialized = true ∧
    sReady.shutdown.publishers = [] ∧
    sReady.shutdown.subscriptions = [] ∧
    sReady.shutdown.clients = [] ∧
    sReady.shutdown.actionClients = [] ∧
    sReady.shutdown.isInitialized = false ∧
    sReady.shutdown.createPublisher "/t" "std_msgs/msg/String" =
      (sReady.shutdown, .error .notInitialized) :=
  have hr : Reachable sReady :=
    Reachable.step_init sNew .ok (Reachable.ctor "ros2_interface_node" "/" 100)
  ⟨rfl,
   ((claim2_shutdown_and_cache_invariant sReady hr).2 rfl).1,
   ((claim2_shutdown_and_cache_invariant sReady hr).2 rfl).2.1,
   ((claim2_shutdown_and_cache_invariant sReady hr).2 rfl).2.2.1,
   ((claim2_shutdown_and_cache_invariant sReady hr).2 rfl).2.2.2.1,
   ((claim2_shutdown_and_cache_invariant sReady hr).2 rfl).2.2.2.2.2.1,
   (((claim2_shutdown_and_cache_invariant sReady hr).2 rfl).2.2.2.2.2.2.2
      "/t" "std_msgs/msg/String" 0 0 0 true true true 0 0 0).1⟩
